import Mathlib

/-!
Verification of the offline caching service (`OfflineService<T>`).

The development shallowly embeds the service's read-through-cache logic:
the per-kind SQLite table (`id char(64) PRIMARY KEY, ttl integer, element blob`),
the five SQL operations, the throttled expiration sweep `removeExpired`, and the
cache-reconciliation operation `getItem`. Stateful and asynchronous behaviour is
made explicit: the table is a list of rows, the RxJS stream outcome of a
`getItem` call is recorded as an `Outcome` value (what was emitted, whether the
remote API was called, which persistence writes were attempted, the resulting
table, and how the output stream terminated).
-/

namespace OfflineService

/-- One stored row of a kind's table: `id char(64) PRIMARY KEY, ttl integer, element blob`. -/
structure Row (T : Type) where
  id : String
  ttl : Int
  element : T
deriving DecidableEq, Repr

/-- Suppress DB invalidations to every x milliseconds (`invalidationInterval = 5000`). -/
def invalidationInterval : Int := 5000

/-- Whether a row is matched by the sweep's WHERE clause `ttl <> -1 and ttl < ?`
with `?` bound to `now`. -/
def expiredB {T : Type} (now : Int) (r : Row T) : Bool :=
  (r.ttl != -1) && decide (r.ttl < now)

/-- Effect of `delete from <prefix> WHERE ttl <> -1 and ttl < ?` on the table:
rows matched by the WHERE clause are removed, all others are kept. -/
def sqlDeleteExpired {T : Type} (table : List (Row T)) (now : Int) : List (Row T) :=
  table.filter (fun r => !(expiredB now r))

/-- Result of `select element from <prefix> where id in (?)`: the `element`
column of every row whose id is in the requested set. -/
def sqlGetElements {T : Type} (table : List (Row T)) (ids : List String) : List T :=
  (table.filter (fun r => ids.contains r.id)).map (fun r => r.element)

/-- Effect of `insert into <prefix> (id, ttl, element) values (?, ?, ?)`.
The column `id` is declared `PRIMARY KEY`, and the statement is a plain INSERT
(no `OR REPLACE` clause), so inserting an id that is already present violates
the primary-key constraint and the statement fails; otherwise the row is added. -/
def sqlAddElement {T : Type} (table : List (Row T)) (i : String) (ttl : Int) (el : T) :
    Except Unit (List (Row T)) :=
  if table.any (fun r => r.id == i) then Except.error ()
  else Except.ok (table ++ [⟨i, ttl, el⟩])

/-- Result of one `removeExpired()` call: whether the returned observable
delivered a `next` value to its subscriber (`from(promise)` emits once; the
throttled branch `new Observable(obs => obs.complete())` never emits), whether
the DELETE statement was issued, and the updated throttle timestamp and table. -/
structure SweepResult (T : Type) where
  emitsNext : Bool
  deleteIssued : Bool
  lastInvalidation : Int
  table : List (Row T)
deriving Repr

/-- Model of `removeExpired()`: if `lastInvalidation + invalidationInterval < now`
then `lastInvalidation` is set to `now` and the expired-row DELETE is issued
(`deleteFails` records whether that statement rejects; a rejection is caught and
the observable still emits); otherwise the call is a no-op whose observable
completes without emitting. -/
def removeExpired {T : Type} (last now : Int) (deleteFails : Bool) (table : List (Row T)) :
    SweepResult T :=
  if last + invalidationInterval < now then
    { emitsNext := true
      deleteIssued := true
      lastInvalidation := now
      table := if deleteFails then table else sqlDeleteExpired table now }
  else
    { emitsNext := false
      deleteIssued := false
      lastInvalidation := last
      table := table }

/-- Environment of one `getItem` call: the stored table, the throttle timestamp,
the sampled connectivity flag `isOnline`, the clock value at the sweep and at the
TTL computation, the kind's configuration (`getTtl`, `getId`), whether the
storage read rejects, whether the sweep's DELETE rejects, and the single batch
(or error) produced by the `getApi` observable. -/
structure OfflineEnv (T : Type) where
  table : List (Row T)
  lastInvalidation : Int
  sweepNow : Int
  fetchNow : Int
  isOnline : Bool
  getTtl : Int
  getId : T → String
  readFails : Bool
  deleteFails : Bool
  apiResult : Except Unit (List T)

/-- Models the loop bound in `getItem`'s read loop
`for(let i = 0, len = res.rows.length; i < length; i++)`: the comparison is
against the free identifier `length`, which resolves to the browser global
`window.length` (the number of frames of the page), 0 for a frameless page —
not against the declared `len`. -/
def windowLength : Nat := 0

/-- Table state after the sweep that opens a `getItem` call. -/
def sweptTable {T : Type} (env : OfflineEnv T) : List (Row T) :=
  (removeExpired env.lastInvalidation env.sweepNow env.deleteFails env.table).table

/-- Elements emitted by the storage-read loop of `getItem`: the loop runs while
`i < length` (the global, see `windowLength`), reading `res.rows.item(i).element`. -/
def localEmits {T : Type} (env : OfflineEnv T) (ids : List String) : List T :=
  (sqlGetElements (sweptTable env) ids).take windowLength

/-- The `haveIds` accumulator of the read loop: `this.getId(element)` for each
element the loop emitted. -/
def haveIds {T : Type} (env : OfflineEnv T) (ids : List String) : List String :=
  (localEmits env ids).map env.getId

/-- The `needIds` computation: `ids.filter(x => !haveIds.includes(x))`. -/
def needIds {T : Type} (env : OfflineEnv T) (ids : List String) : List String :=
  ids.filter (fun x => !((haveIds env ids).contains x))

/-- The TTL value computed once per `getItem` invocation:
`this.getTtl() === -1 ? -1 : this.getTtl() + now`. -/
def ttlValue {T : Type} (env : OfflineEnv T) : Int :=
  if env.getTtl = -1 then -1 else env.getTtl + env.fetchNow

/-- How the output observable of a `getItem` call ends: `completed` after
`obs.complete()`, `errored` after `obs.error(...)` (no code path calls it),
`hangs` when neither is ever called. -/
inductive StreamEnd
  | completed
  | errored
  | hangs
deriving DecidableEq, Repr

/-- Observable outcome of one `getItem` call: the emitted elements in order,
the argument of the `getApi` call (`none` when no remote fetch was issued), the
attempted persistence writes `(id, ttl, element)`, the table after the call,
the stream termination, and whether an error escaped as an unhandled RxJS
error rather than through the stream. -/
structure Outcome (T : Type) where
  emitted : List T
  fetchArg : Option (List String)
  writes : List (String × Int × T)
  tableAfter : List (Row T)
  streamEnd : StreamEnd
  unhandledError : Bool
deriving DecidableEq, Repr

/-- Applies the batch of persistence writes in order: each
`sqlAddElement` either extends the table or fails (the rejection is swallowed
by `Promise.all(...).finally`, leaving the table unchanged). -/
def applyWrites {T : Type} (table : List (Row T)) (ws : List (String × Int × T)) :
    List (Row T) :=
  ws.foldl
    (fun tb w =>
      match sqlAddElement tb w.1 w.2.1 w.2.2 with
      | Except.ok tb2 => tb2
      | Except.error _ => tb)
    table

/-- Model of `getItem(ids)`. The body subscribes to `removeExpired()` with a
`next` handler only, so it runs exactly when the sweep observable emits (the
throttled branch completes without emitting and the call hangs). If the storage
read rejects, the `catch` completes the stream with nothing emitted. Otherwise
the read loop emits `localEmits`, `needIds` is computed, and if ids are missing
while online the TTL is computed once and `getApi(needIds)` is subscribed —
again with a `next` handler only, so an API error is unhandled and the stream
never terminates; on a batch `rc` every element is emitted and a write is
issued for it, and `Promise.all(...).finally` completes the stream. -/
def getItem {T : Type} (env : OfflineEnv T) (ids : List String) : Outcome T :=
  if env.lastInvalidation + invalidationInterval < env.sweepNow then
    if env.readFails = true then
      { emitted := []
        fetchArg := none
        writes := []
        tableAfter := sweptTable env
        streamEnd := StreamEnd.completed
        unhandledError := false }
    else if 0 < (needIds env ids).length ∧ env.isOnline = true then
      match env.apiResult with
      | Except.error _ =>
        { emitted := localEmits env ids
          fetchArg := some (needIds env ids)
          writes := []
          tableAfter := sweptTable env
          streamEnd := StreamEnd.hangs
          unhandledError := true }
      | Except.ok rc =>
        { emitted := localEmits env ids ++ rc
          fetchArg := some (needIds env ids)
          writes := rc.map (fun e => (env.getId e, ttlValue env, e))
          tableAfter := applyWrites (sweptTable env) (rc.map (fun e => (env.getId e, ttlValue env, e)))
          streamEnd := StreamEnd.completed
          unhandledError := false }
    else
      { emitted := localEmits env ids
        fetchArg := none
        writes := []
        tableAfter := sweptTable env
        streamEnd := StreamEnd.completed
        unhandledError := false }
  else
    { emitted := []
      fetchArg := none
      writes := []
      tableAfter := env.table
      streamEnd := StreamEnd.hangs
      unhandledError := false }

/-- Settlement fate of one persistence-write promise. -/
inductive PromiseFate
  | fulfilled
  | rejected
deriving DecidableEq, Repr

/-- One persistence write of the fetched batch together with the time at which
its promise settles. -/
structure TimedWrite where
  fate : PromiseFate
  settleAt : Nat
deriving DecidableEq, Repr

/-- Time at which the last of the writes settles. -/
def lastSettleTime (ws : List TimedWrite) : Nat :=
  (ws.map TimedWrite.settleAt).foldl Nat.max 0

/-- Time at which `Promise.all(promises)` settles: when every promise fulfills
it fulfills once the last one has; as soon as any promise rejects it rejects,
i.e. at the earliest rejection time. -/
def promiseAllSettleAt (ws : List TimedWrite) : Nat :=
  match (ws.filter (fun w => w.fate == PromiseFate.rejected)).map TimedWrite.settleAt with
  | [] => lastSettleTime ws
  | t :: ts => ts.foldl Nat.min t

/-- Time at which `Promise.all(promises).finally(() => obs.complete())` signals
completion of the output stream: the `finally` callback runs as soon as
`Promise.all` settles. -/
def completeSignalAt (ws : List TimedWrite) : Nat :=
  promiseAllSettleAt ws

/-- Appending the writes of a batch preserves uniqueness of stored ids: a
conflicting `sqlAddElement` fails and leaves the table unchanged, and a
successful one appends an id that was not present. -/
theorem applyWrites_nodup {T : Type} (ws : List (String × Int × T)) :
    ∀ tb : List (Row T), (tb.map Row.id).Nodup → ((applyWrites tb ws).map Row.id).Nodup := by
  induction ws with
  | nil =>
    intro tb h
    simpa [applyWrites] using h
  | cons w ws ih =>
    intro tb h
    show ((applyWrites
        (match sqlAddElement tb w.1 w.2.1 w.2.2 with
          | Except.ok tb2 => tb2
          | Except.error _ => tb) ws).map Row.id).Nodup
    by_cases hc : tb.any (fun r => r.id == w.1) = true
    · rw [show sqlAddElement tb w.1 w.2.1 w.2.2 = Except.error () from by
        simp [sqlAddElement, hc]]
      exact ih tb h
    · rw [show sqlAddElement tb w.1 w.2.1 w.2.2 = Except.ok (tb ++ [⟨w.1, w.2.1, w.2.2⟩]) from by
        simp [sqlAddElement, hc]]
      apply ih
      rw [List.map_append]
      refine List.Nodup.append h (by simp) ?_
      intro a ha hb
      simp only [List.map_cons, List.map_nil, List.mem_singleton] at hb
      subst hb
      rcases List.mem_map.mp ha with ⟨r, hr, hid⟩
      exact hc (List.any_eq_true.mpr ⟨r, hr, by simp [hid]⟩)

/-- Filtering the table preserves uniqueness of stored ids. -/
theorem filter_map_id_nodup {T : Type} (p : Row T → Bool) (tb : List (Row T))
    (h : (tb.map Row.id).Nodup) : ((tb.filter p).map Row.id).Nodup :=
  List.Nodup.sublist (List.Sublist.map Row.id (List.filter_sublist tb)) h

/-- The expiration sweep preserves uniqueness of stored ids. -/
theorem sweptTable_nodup {T : Type} (env : OfflineEnv T)
    (h : (env.table.map Row.id).Nodup) : ((sweptTable env).map Row.id).Nodup := by
  by_cases h1 : env.lastInvalidation + invalidationInterval < env.sweepNow
  · by_cases h2 : env.deleteFails = true
    · simpa [sweptTable, removeExpired, h1, h2] using h
    · have h2' : env.deleteFails = false := by simpa using h2
      have := filter_map_id_nodup (fun r => !(expiredB env.sweepNow r)) env.table h
      simpa [sweptTable, removeExpired, h1, h2', sqlDeleteExpired] using this
  · simpa [sweptTable, removeExpired, h1] using h

/-- C2 counterexample: a persistence write for an id that already has a stored
entry does not overwrite it — the plain INSERT violates the primary-key
constraint and fails, and the previously stored entry (old ttl, old payload)
is left unchanged. -/
theorem sqlAddElement_conflict_fails :
    sqlAddElement [(⟨"a", 5, "x"⟩ : Row String)] "a" 9 "y" = Except.error () ∧
    applyWrites [(⟨"a", 5, "x"⟩ : Row String)] [("a", 9, "y")] = [⟨"a", 5, "x"⟩] :=
  And.intro rfl rfl

/-- C2 (amended): at most one stored entry per id is maintained by every
`getItem` call — if the table's ids are unique before the call they are unique
after it — and a persistence write for an id that already has a stored entry
fails with a constraint violation instead of overwriting or duplicating. -/
theorem getItem_unique_id_invariant {T : Type} (env : OfflineEnv T) (ids : List String)
    (h : (env.table.map Row.id).Nodup) :
    ((getItem env ids).tableAfter.map Row.id).Nodup ∧
    (∀ (tb : List (Row T)) (i : String) (ttl : Int) (el : T),
      tb.any (fun r => r.id == i) = true → sqlAddElement tb i ttl el = Except.error ()) := by
  constructor
  · by_cases h1 : env.lastInvalidation + invalidationInterval < env.sweepNow
    · by_cases h2 : env.readFails = true
      · have htab : (getItem env ids).tableAfter = sweptTable env := by
          simp [getItem, h1, h2]
        rw [htab]
        exact sweptTable_nodup env h
      · have h2' : env.readFails = false := by simpa using h2
        by_cases h3 : 0 < (needIds env ids).length ∧ env.isOnline = true
        · cases hres : env.apiResult with
          | error e =>
            have htab : (getItem env ids).tableAfter = sweptTable env := by
              simp [getItem, h1, h2', h3, hres]
            rw [htab]
            exact sweptTable_nodup env h
          | ok rc =>
            have htab : (getItem env ids).tableAfter =
                applyWrites (sweptTable env) (rc.map (fun e => (env.getId e, ttlValue env, e))) := by
              simp [getItem, h1, h2', h3, hres]
            rw [htab]
            exact applyWrites_nodup _ _ (sweptTable_nodup env h)
        · have htab : (getItem env ids).tableAfter = sweptTable env := by
            simp [getItem, h1, h2', h3]
          rw [htab]
          exact sweptTable_nodup env h
    · have htab : (getItem env ids).tableAfter = env.table := by
        simp [getItem, h1]
      rw [htab]
      exact h
  · intro tb i ttl el hc
    simp [sqlAddElement, hc]

/-- C2 witness: on a concrete call against a table with unique ids, the table
after the call still has unique ids. -/
theorem getItem_unique_id_invariant_witness :
    ((getItem
      { table := [⟨"a", 5, "x"⟩]
        lastInvalidation := 0
        sweepNow := 10000
        fetchNow := 10000
        isOnline := true
        getTtl := 180
        getId := fun s => s
        readFails := false
        deleteFails := false
        apiResult := Except.ok ["a"] } ["a"]).tableAfter.map Row.id).Nodup :=
  (getItem_unique_id_invariant
    { table := [⟨"a", 5, "x"⟩]
      lastInvalidation := 0
      sweepNow := 10000
      fetchNow := 10000
      isOnline := true
      getTtl := 180
      getId := fun s => s
      readFails := false
      deleteFails := false
      apiResult := Except.ok ["a"] } ["a"] (by decide)).1

/-- C5 counterexample: at the throttle boundary `now - lastSweepAt = 5000` the
claimed condition `now - lastSweepAt >= invalidationInterval` holds, yet the
code (`lastInvalidation + invalidationInterval < now`) does not issue the
expired-row delete. -/
theorem removeExpired_boundary_no_sweep :
    (removeExpired 0 5000 false ([] : List (Row String))).deleteIssued = false ∧
    (5000 : Int) - 0 ≥ invalidationInterval := by
  decide

/-- C5 (amended): `sweep(now)` issues the expired-row delete if and only if
`now - lastSweepAt` is strictly greater than `invalidationInterval` (5000 ms);
when it is issued, `lastSweepAt` is set to `now`, and when the throttle
condition is not met the call is a no-op leaving the timestamp and the table
unchanged. -/
theorem removeExpired_throttle {T : Type} (last now : Int) (df : Bool) (table : List (Row T)) :
    ((removeExpired last now df table).deleteIssued = true ↔ invalidationInterval < now - last) ∧
    ((removeExpired last now df table).deleteIssued = true →
      (removeExpired last now df table).lastInvalidation = now) ∧
    ((removeExpired last now df table).deleteIssued = false →
      (removeExpired last now df table).lastInvalidation = last ∧
      (removeExpired last now df table).table = table) := by
  by_cases h : last + invalidationInterval < now
  · refine ⟨by simp [removeExpired, h]; omega, by simp [removeExpired, h], by simp [removeExpired, h]⟩
  · refine ⟨by simp [removeExpired, h]; omega, by simp [removeExpired, h], by simp [removeExpired, h]⟩

/-- C5 witness: a call strictly past the throttle window issues the delete. -/
theorem removeExpired_throttle_witness :
    (removeExpired 0 10000 false ([] : List (Row String))).deleteIssued = true :=
  ((removeExpired_throttle 0 10000 false ([] : List (Row String))).1).mpr (by decide)

/-- C6: in a sweep executed at time `now`, a stored entry is deleted exactly
when its `ttl` is not the sentinel `-1` and `ttl < now`; in particular an entry
with `ttl = now` is not purged and an entry with `ttl = -1` is never purged. -/
theorem removeExpired_deletes_iff {T : Type} (last now : Int) (table : List (Row T))
    (hthr : last + invalidationInterval < now) :
    (∀ r ∈ table, (r ∈ (removeExpired last now false table).table ↔
      ¬(r.ttl ≠ -1 ∧ r.ttl < now))) ∧
    (∀ r ∈ table, r.ttl = now → r ∈ (removeExpired last now false table).table) ∧
    (∀ r ∈ table, r.ttl = -1 → r ∈ (removeExpired last now false table).table) := by
  have htab : (removeExpired last now false table).table = sqlDeleteExpired table now := by
    simp [removeExpired, hthr]
  have hmem : ∀ r ∈ table, (r ∈ (removeExpired last now false table).table ↔
      ¬(r.ttl ≠ -1 ∧ r.ttl < now)) := by
    intro r hr
    rw [htab]
    simp [sqlDeleteExpired, List.mem_filter, hr, expiredB]
    tauto
  refine ⟨hmem, ?_, ?_⟩
  · intro r hr hnow
    exact (hmem r hr).mpr (by rw [hnow]; omega)
  · intro r hr hsent
    exact (hmem r hr).mpr (by rw [hsent]; simp)

/-- C6 witness: a never-expiring entry survives a concrete executed sweep. -/
theorem removeExpired_deletes_iff_witness :
    (⟨"a", -1, "x"⟩ : Row String) ∈
      (removeExpired 0 10000 false [(⟨"a", -1, "x"⟩ : Row String)]).table :=
  (removeExpired_deletes_iff 0 10000 [(⟨"a", -1, "x"⟩ : Row String)] (by decide)).2.2
    ⟨"a", -1, "x"⟩ (by decide) (by decide)

/-- Concrete environment for the read-path bug (claim C1): one unexpired cached
row for id `a`, online, sweep throttle open, remote returning an empty batch. -/
def envReadBug : OfflineEnv String :=
  { table := [⟨"a", -1, "x"⟩]
    lastInvalidation := 0
    sweepNow := 10000
    fetchNow := 10000
    isOnline := true
    getTtl := 180
    getId := fun s => s
    readFails := false
    deleteFails := false
    apiResult := Except.ok [] }

/-- C1: with every requested id present and unexpired in storage, the stored
entity is in the read result, yet `getItem` emits nothing from the cache (the
read loop's bound is the global `length`, i.e. 0) and issues a remote fetch for
the supposedly satisfied id — contradicting the claim that exactly the stored
entities are emitted and no remote fetch is issued. -/
theorem getItem_cached_entry_read_bug :
    sqlGetElements (sweptTable envReadBug) ["a"] = ["x"] ∧
    (getItem envReadBug ["a"]).emitted = [] ∧
    (getItem envReadBug ["a"]).fetchArg = some ["a"] := by
  refine ⟨rfl, rfl, rfl⟩

/-- Concrete environment for the remote-error behaviour (claim C3): empty
storage, online, remote call errors. -/
def envApiError : OfflineEnv String :=
  { table := []
    lastInvalidation := 0
    sweepNow := 10000
    fetchNow := 10000
    isOnline := true
    getTtl := 180
    getId := fun s => s
    readFails := false
    deleteFails := false
    apiResult := Except.error () }

/-- C3 counterexample: with missing ids while reachable and a remote call that
errors, the `getItem` stream does not fail — no error is delivered to the
caller; the stream hangs and the error is unhandled. -/
theorem getItem_api_error_not_propagated :
    (getItem envApiError ["a"]).streamEnd = StreamEnd.hangs ∧
    (getItem envApiError ["a"]).streamEnd ≠ StreamEnd.errored ∧
    (getItem envApiError ["a"]).unhandledError = true := by
  refine ⟨rfl, by decide, rfl⟩

/-- C3 (amended): with a non-empty missing set while reachable, if the remote
fetch itself errors the error does not propagate to the caller — the `getApi`
subscription has no error handler, so the output stream neither errors nor
completes and the error surfaces as an unhandled error outside the stream. -/
theorem getItem_api_error_hangs {T : Type} (env : OfflineEnv T) (ids : List String)
    (h1 : env.lastInvalidation + invalidationInterval < env.sweepNow)
    (h2 : env.readFails = false)
    (h3 : 0 < (needIds env ids).length)
    (h4 : env.isOnline = true)
    (h5 : env.apiResult = Except.error ()) :
    (getItem env ids).streamEnd = StreamEnd.hangs ∧
    (getItem env ids).unhandledError = true ∧
    (getItem env ids).streamEnd ≠ StreamEnd.errored := by
  simp [getItem, h1, h2, h3, h4, h5]

/-- C3 witness: the amended behaviour on a concrete erroring remote call. -/
theorem getItem_api_error_hangs_witness :
    (getItem envApiError ["b"]).streamEnd = StreamEnd.hangs :=
  (getItem_api_error_hangs envApiError ["b"] (by decide) rfl (by decide) rfl rfl).1

/-- Concrete environment for the write-failure behaviour (claim C4): the remote
batch contains an entity whose id collides with a stored row, so its
persistence write fails. -/
def envWriteFail : OfflineEnv String :=
  { table := [⟨"a", -1, "x"⟩]
    lastInvalidation := 0
    sweepNow := 10000
    fetchNow := 10000
    isOnline := true
    getTtl := 180
    getId := fun _ => "a"
    readFails := false
    deleteFails := false
    apiResult := Except.ok ["y"] }

/-- C4: with two persistence writes, one rejecting at t = 1 and one fulfilling
at t = 5, `Promise.all(...).finally(() => obs.complete())` signals completion at
t = 1 — before the sibling write has settled — contradicting the claim that
completion waits for all writes to settle. The remaining parts of the claim
hold: on a concrete call whose single write fails, the stream still completes
(no stream error), the fetched entity stays emitted, and the table is simply
left unchanged. -/
theorem promiseAll_early_completion_bug :
    completeSignalAt [⟨PromiseFate.rejected, 1⟩, ⟨PromiseFate.fulfilled, 5⟩] = 1 ∧
    lastSettleTime [⟨PromiseFate.rejected, 1⟩, ⟨PromiseFate.fulfilled, 5⟩] = 5 ∧
    completeSignalAt [⟨PromiseFate.rejected, 1⟩, ⟨PromiseFate.fulfilled, 5⟩] <
      lastSettleTime [⟨PromiseFate.rejected, 1⟩, ⟨PromiseFate.fulfilled, 5⟩] ∧
    (getItem envWriteFail ["b"]).streamEnd = StreamEnd.completed ∧
    (getItem envWriteFail ["b"]).emitted = ["y"] ∧
    (getItem envWriteFail ["b"]).tableAfter = [⟨"a", -1, "x"⟩] := by
  refine ⟨rfl, rfl, by decide, rfl, rfl, rfl⟩

/-- Concrete environment for the no-fetch path (claim C7): a cached row,
offline. -/
def envOffline : OfflineEnv String :=
  { table := [⟨"a", -1, "x"⟩]
    lastInvalidation := 0
    sweepNow := 10000
    fetchNow := 10000
    isOnline := false
    getTtl := 180
    getId := fun s => s
    readFails := false
    deleteFails := false
    apiResult := Except.ok [] }

/-- C7: if after the local read the missing-id set is empty or the connectivity
signal reports unreachable, `getItem` completes immediately after the read,
issues no remote call and no persistence writes, and everything it emitted is a
locally stored entity for the requested ids. -/
theorem getItem_no_fetch_when_satisfied_or_offline {T : Type} (env : OfflineEnv T)
    (ids : List String)
    (h1 : env.lastInvalidation + invalidationInterval < env.sweepNow)
    (h2 : env.readFails = false)
    (h3 : needIds env ids = [] ∨ env.isOnline = false) :
    (getItem env ids).streamEnd = StreamEnd.completed ∧
    (getItem env ids).fetchArg = none ∧
    (getItem env ids).writes = [] ∧
    ∀ e ∈ (getItem env ids).emitted, e ∈ sqlGetElements (sweptTable env) ids := by
  have hcond : ¬(0 < (needIds env ids).length ∧ env.isOnline = true) := by
    rcases h3 with h | h
    · simp [h]
    · simp [h]
  have heq : getItem env ids =
      { emitted := localEmits env ids
        fetchArg := none
        writes := []
        tableAfter := sweptTable env
        streamEnd := StreamEnd.completed
        unhandledError := false } := by
    simp [getItem, h1, h2, hcond]
  rw [heq]
  refine ⟨rfl, rfl, rfl, ?_⟩
  intro e he
  exact List.mem_of_mem_take (by simpa [localEmits] using he)

/-- C7 witness: a concrete offline call with a cached row issues no fetch. -/
theorem getItem_no_fetch_witness :
    (getItem envOffline ["a"]).fetchArg = none :=
  (getItem_no_fetch_when_satisfied_or_offline envOffline ["a"] (by decide) rfl
    (Or.inr rfl)).2.1

/-- Concrete environment for the read-failure path (claim C8). -/
def envReadFail : OfflineEnv String :=
  { table := [⟨"a", -1, "x"⟩]
    lastInvalidation := 0
    sweepNow := 10000
    fetchNow := 10000
    isOnline := true
    getTtl := 180
    getId := fun s => s
    readFails := true
    deleteFails := false
    apiResult := Except.ok [] }

/-- C8: if the storage read of the cached rows fails, `getItem` completes
immediately with nothing emitted and no error delivered to the caller — no
remote fetch and no persistence writes happen. -/
theorem getItem_read_failure_soft {T : Type} (env : OfflineEnv T) (ids : List String)
    (h1 : env.lastInvalidation + invalidationInterval < env.sweepNow)
    (h2 : env.readFails = true) :
    (getItem env ids).emitted = [] ∧
    (getItem env ids).streamEnd = StreamEnd.completed ∧
    (getItem env ids).streamEnd ≠ StreamEnd.errored ∧
    (getItem env ids).unhandledError = false ∧
    (getItem env ids).fetchArg = none ∧
    (getItem env ids).writes = [] := by
  simp [getItem, h1, h2]

/-- C8 witness: the fail-soft behaviour on a concrete failing read. -/
theorem getItem_read_failure_soft_witness :
    (getItem envReadFail ["a"]).streamEnd = StreamEnd.completed :=
  (getItem_read_failure_soft envReadFail ["a"] (by decide) rfl).2.1

/-- Concrete environment for the TTL computation (claim C9): empty storage,
online, remote returning one entity. -/
def envTtl : OfflineEnv String :=
  { table := []
    lastInvalidation := 0
    sweepNow := 10000
    fetchNow := 10000
    isOnline := true
    getTtl := 180
    getId := fun s => s
    readFails := false
    deleteFails := false
    apiResult := Except.ok ["y"] }

/-- C9: when `getItem` reaches the remote-fetch step, the expiration timestamp
is the single value `getTtl() = -1 ? -1 : getTtl() + now`, computed once per
invocation, and every persistence write of the fetched batch carries exactly
that value. -/
theorem getItem_ttl_uniform {T : Type} (env : OfflineEnv T) (ids : List String)
    (h1 : env.lastInvalidation + invalidationInterval < env.sweepNow)
    (h2 : env.readFails = false)
    (h3 : 0 < (needIds env ids).length)
    (h4 : env.isOnline = true)
    (rc : List T) (h5 : env.apiResult = Except.ok rc) :
    (getItem env ids).writes = rc.map (fun e => (env.getId e, ttlValue env, e)) ∧
    ((getItem env ids).writes.all (fun w => w.2.1 == ttlValue env)) = true ∧
    ttlValue env = (if env.getTtl = -1 then -1 else env.getTtl + env.fetchNow) := by
  refine ⟨?_, ?_, rfl⟩
  · simp [getItem, h1, h2, h3, h4, h5]
  · simp [getItem, h1, h2, h3, h4, h5, List.all_eq_true]

/-- C9 witness: on a concrete fetched batch every write carries the single
computed TTL value. -/
theorem getItem_ttl_uniform_witness :
    ((getItem envTtl ["a"]).writes.all (fun w => w.2.1 == ttlValue envTtl)) = true :=
  (getItem_ttl_uniform envTtl ["a"] (by decide) rfl (by decide) rfl ["y"] rfl).2.1

/-- Concrete environment for the empty-batch path (claim C10): empty storage,
online, remote returning the empty batch. -/
def envEmptyBatch : OfflineEnv String :=
  { table := []
    lastInvalidation := 0
    sweepNow := 10000
    fetchNow := 10000
    isOnline := true
    getTtl := 180
    getId := fun s => s
    readFails := false
    deleteFails := false
    apiResult := Except.ok [] }

/-- C10: with a non-empty missing set while reachable, if the remote fetch
returns an empty batch then `getItem` still completes (`Promise.all` of no
writes settles immediately), issues no persistence writes, and everything it
emitted is a locally stored entity for the requested ids. -/
theorem getItem_empty_batch_completes {T : Type} (env : OfflineEnv T) (ids : List String)
    (h1 : env.lastInvalidation + invalidationInterval < env.sweepNow)
    (h2 : env.readFails = false)
    (h3 : 0 < (needIds env ids).length)
    (h4 : env.isOnline = true)
    (h5 : env.apiResult = Except.ok ([] : List T)) :
    (getItem env ids).streamEnd = StreamEnd.completed ∧
    (getItem env ids).writes = [] ∧
    (getItem env ids).fetchArg = some (needIds env ids) ∧
    ∀ e ∈ (getItem env ids).emitted, e ∈ sqlGetElements (sweptTable env) ids := by
  have heq : getItem env ids =
      { emitted := localEmits env ids
        fetchArg := some (needIds env ids)
        writes := []
        tableAfter := sweptTable env
        streamEnd := StreamEnd.completed
        unhandledError := false } := by
    simp [getItem, applyWrites, h1, h2, h3, h4, h5]
  rw [heq]
  refine ⟨rfl, rfl, rfl, ?_⟩
  intro e he
  exact List.mem_of_mem_take (by simpa [localEmits] using he)

/-- C10 witness: a concrete call whose remote fetch returns nothing still
completes. -/
theorem getItem_empty_batch_completes_witness :
    (getItem envEmptyBatch ["a"]).streamEnd = StreamEnd.completed :=
  (getItem_empty_batch_completes envEmptyBatch ["a"] (by decide) rfl (by decide) rfl rfl).1

end OfflineService
